import Mathlib

/-!
Verification of the Model100-Firmware keyboard configuration.

The repository is a Kaleidoscope firmware configuration: a keymap table
(three layers: PRIMARY, SYMBOL, MOUSE), two macros, two magic combos, and
a build script that composes a version string.  The layer-resolution,
dual-role (qukeys) and magic-combo engines live in the external
Kaleidoscope framework, so those engines are modelled from the spec;
the keymap tables, macro handlers, macro dispatch and the build script
are embedded directly from the source files
(src/Model100-Firmware.ino and src/unnamed/part_000).
-/

/-- The named keys used by the keymaps in this configuration
(`Key_...` identifiers from the source, with the `Key_` prefix kept in
the constructor names). -/
inductive KeyName where
  | Key_Equals | Key_1 | Key_2 | Key_3 | Key_4 | Key_5 | Key_Escape
  | Key_CapsLock | Key_Q | Key_W | Key_E | Key_R | Key_T | Key_LEDEffectNext
  | Key_Tab | Key_A | Key_S | Key_D | Key_F | Key_G
  | Key_LeftShift | Key_Z | Key_X | Key_C | Key_V | Key_B | Key_Meh
  | Key_Backspace | Key_Delete | Key_Home | Key_End
  | Key_6 | Key_7 | Key_8 | Key_9 | Key_0 | Key_Minus
  | Key_Y | Key_U | Key_I | Key_O | Key_P | Key_Backslash
  | Key_H | Key_J | Key_K | Key_L | Key_Semicolon | Key_Quote
  | Key_N | Key_M | Key_Comma | Key_Period | Key_Slash | Key_RightShift
  | Key_PageDown | Key_PageUp | Key_Enter | Key_Spacebar
  | Key_LeftControl | Key_LeftAlt | Key_LeftGui
  | Key_Backtick | Key_F1 | Key_F2 | Key_F3 | Key_F4 | Key_F5
  | Key_F6 | Key_F7 | Key_F8 | Key_F9 | Key_F10
  | Key_LeftCurlyBracket | Key_RightCurlyBracket
  | Key_LeftBracket | Key_RightBracket
  | Key_LeftArrow | Key_DownArrow | Key_UpArrow | Key_RightArrow
  | Key_mouseUpL | Key_mouseUp | Key_mouseUpR
  | Key_mouseL | Key_mouseDn | Key_mouseR
  | Key_mouseDnL | Key_mouseDnR
  | Key_mouseWarpEnd | Key_mouseWarpNW | Key_mouseWarpNE
  | Key_mouseWarpSW | Key_mouseWarpSE
  | Key_mouseBtnL | Key_mouseBtnR
  deriving DecidableEq, Repr

/-- A keymap entry (spec section 3, `LogicalKeyAction`): a plain key,
`___` (transparent), `XXX` (blocked), `ShiftToLayer(n)`, `LockLayer(n)`,
a dual-role key such as `CTL_T(Backspace)`, or a macro reference `M(id)`. -/
inductive LogicalKeyAction where
  | plainKey (k : KeyName)
  | transparent
  | blocked
  | shiftToLayer (layer : Nat)
  | lockLayer (layer : Nat)
  | dualRole (primary : KeyName) (secondary : KeyName)
  | macroRef (id : Nat)
  deriving DecidableEq, Repr

/-- `CTL_T(k)` from the source: tap for `k`, hold for left control. -/
def CTL_T (k : KeyName) : LogicalKeyAction := .dualRole k .Key_LeftControl

/-- `ALT_T(k)` from the source: tap for `k`, hold for left alt. -/
def ALT_T (k : KeyName) : LogicalKeyAction := .dualRole k .Key_LeftAlt

/-- `GUI_T(k)` from the source: tap for `k`, hold for left gui. -/
def GUI_T (k : KeyName) : LogicalKeyAction := .dualRole k .Key_LeftGui

/-- `M(id)` from the source: a macro reference. -/
def M (id : Nat) : LogicalKeyAction := .macroRef id

/-- `___` from the source: a transparent entry, falls through to the
next lower active layer. -/
def ___ : LogicalKeyAction := .transparent

/-- `XXX` from the source conventions: a blocked entry. -/
def XXX : LogicalKeyAction := .blocked

/-- `ShiftToLayer(n)` from the source: momentary layer shift while held. -/
def ShiftToLayer (n : Nat) : LogicalKeyAction := .shiftToLayer n

/-- Plain key entry; `K k` embeds a bare `Key_...` keymap entry. -/
def K (k : KeyName) : LogicalKeyAction := .plainKey k

/-- Layer index PRIMARY = 0 (source enum `{ PRIMARY, SYMBOL, MOUSE }`). -/
def PRIMARY : Nat := 0

/-- Layer index SYMBOL = 1. -/
def SYMBOL : Nat := 1

/-- Layer index MOUSE = 2. -/
def MOUSE : Nat := 2

/-- A physical key position.  The `KEYMAP_STACKED` framework macro places
its 64 textual arguments bijectively onto the 64 switch positions of the
4x16 scan matrix, so we identify a position with its slot in the stacked
argument order: left-hand rows of 7/7/6/7 entries, 4 left thumb keys, the
left palm key, then the right-hand rows of 7/7/6/7, 4 right thumb keys and
the right palm key. -/
abbrev KeyPosition := Fin 64

open KeyName in
/-- The `[PRIMARY]` keymap of `src/Model100-Firmware.ino` (KEYMAPS, lines
167-186), entries in stacked argument order. -/
def primaryKeymap : List LogicalKeyAction :=
  [ K Key_Equals,    K Key_1, K Key_2, K Key_3, K Key_4, K Key_5, K Key_Escape,
    K Key_CapsLock,  K Key_Q, K Key_W, K Key_E, K Key_R, K Key_T, K Key_LEDEffectNext,
    K Key_Tab,       K Key_A, K Key_S, K Key_D, K Key_F, K Key_G,
    K Key_LeftShift, K Key_Z, K Key_X, K Key_C, K Key_V, K Key_B, K Key_Meh,
    CTL_T Key_Backspace, ALT_T Key_Delete, GUI_T Key_Home, K Key_End,
    ShiftToLayer SYMBOL,
    ___,                 K Key_6, K Key_7, K Key_8,     K Key_9,      K Key_0,         K Key_Minus,
    ___,                 K Key_Y, K Key_U, K Key_I,     K Key_O,      K Key_P,         K Key_Backslash,
                         K Key_H, K Key_J, K Key_K,     K Key_L,      K Key_Semicolon, K Key_Quote,
    ShiftToLayer MOUSE,  K Key_N, K Key_M, K Key_Comma, K Key_Period, K Key_Slash,     K Key_RightShift,
    K Key_PageDown, GUI_T Key_PageUp, ALT_T Key_Enter, CTL_T Key_Spacebar,
    ShiftToLayer SYMBOL ]

open KeyName in
/-- The `[PRIMARY]` keymap of `src/unnamed/part_000` (lines 59-78): same as
`primaryKeymap` except the `Key_LEDEffectNext` slot is `___`. -/
def primaryKeymap_p0 : List LogicalKeyAction :=
  [ K Key_Equals,    K Key_1, K Key_2, K Key_3, K Key_4, K Key_5, K Key_Escape,
    K Key_CapsLock,  K Key_Q, K Key_W, K Key_E, K Key_R, K Key_T, ___,
    K Key_Tab,       K Key_A, K Key_S, K Key_D, K Key_F, K Key_G,
    K Key_LeftShift, K Key_Z, K Key_X, K Key_C, K Key_V, K Key_B, K Key_Meh,
    CTL_T Key_Backspace, ALT_T Key_Delete, GUI_T Key_Home, K Key_End,
    ShiftToLayer SYMBOL,
    ___,                 K Key_6, K Key_7, K Key_8,     K Key_9,      K Key_0,         K Key_Minus,
    ___,                 K Key_Y, K Key_U, K Key_I,     K Key_O,      K Key_P,         K Key_Backslash,
                         K Key_H, K Key_J, K Key_K,     K Key_L,      K Key_Semicolon, K Key_Quote,
    ShiftToLayer MOUSE,  K Key_N, K Key_M, K Key_Comma, K Key_Period, K Key_Slash,     K Key_RightShift,
    K Key_PageDown, GUI_T Key_PageUp, ALT_T Key_Enter, CTL_T Key_Spacebar,
    ShiftToLayer SYMBOL ]

open KeyName in
/-- The `[SYMBOL]` keymap (both source files, identical). -/
def symbolKeymap : List LogicalKeyAction :=
  [ K Key_Backtick, K Key_F1, K Key_F2, K Key_F3, K Key_F4, K Key_F5, M 0,
    ___, ___, ___, ___, ___, ___, ___,
    ___, ___, ___, ___, ___, ___,
    ___, ___, ___, ___, ___, ___, ___,
    ___, ___, ___, ___,
    ___,
    ___,           K Key_F6,        K Key_F7,        K Key_F8,       K Key_F9,          K Key_F10,          ___,
    ___,           ___,             K Key_LeftCurlyBracket, K Key_RightCurlyBracket, K Key_LeftBracket, K Key_RightBracket, ___,
                   K Key_LeftArrow, K Key_DownArrow, K Key_UpArrow,  K Key_RightArrow,  ___,               ___,
    K Key_LeftGui, ___,             ___,             K Key_8,        M 1,               ___,               ___,
    ___, ___, ___, ___,
    ___ ]

open KeyName in
/-- The `[MOUSE]` keymap (both source files, identical). -/
def mouseKeymap : List LogicalKeyAction :=
  [ ___, ___, ___,            ___,           ___,            ___, ___,
    ___, ___, K Key_mouseUpL, K Key_mouseUp, K Key_mouseUpR, ___, ___,
    ___, ___, K Key_mouseL,   K Key_mouseDn, K Key_mouseR,   ___,
    ___, ___, K Key_mouseDnL, ___,           K Key_mouseDnR, ___, ___,
    ___, ___, ___, ___,
    ___,
    ___, ___,                ___,               ___,               ___,             ___,             ___,
    ___, K Key_mouseWarpEnd, K Key_mouseWarpNW, K Key_mouseWarpNE, K Key_mouseBtnL, K Key_mouseBtnR, ___,
         ___,                K Key_mouseWarpSW, K Key_mouseWarpSE, ___,             ___,             ___,
    ___, ___,                ___,               ___,               ___,             ___,             ___,
    ___, ___, ___, ___,
    ___ ]

/-- View a 64-entry keymap list as a total function on key positions. -/
def layerFun (l : List LogicalKeyAction) (p : KeyPosition) : LogicalKeyAction :=
  l.getD p.val .blocked

theorem primaryKeymap_length : primaryKeymap.length = 64 := rfl

theorem primaryKeymap_p0_length : primaryKeymap_p0.length = 64 := rfl

theorem symbolKeymap_length : symbolKeymap.length = 64 := rfl

theorem mouseKeymap_length : mouseKeymap.length = 64 := rfl

/-- A layer viewed as a total binding table. -/
abbrev Layer := KeyPosition → LogicalKeyAction

/-- Modelled from the spec: the layer-resolution engine lives in the
external Kaleidoscope framework, not in this repository.  Spec section
4.1: given a KeyPosition and the current LayerStack (ordered, highest
layer first), scan layers from top of stack to base layer and return the
first non-Transparent, non-Blocked action; if all layers yield
Transparent, the key produces no action; Blocked at any scanned layer
stops the scan immediately. -/
def resolve (stack : List Layer) (p : KeyPosition) : Option LogicalKeyAction :=
  match stack with
  | [] => none
  | layer :: rest =>
    if layer p = LogicalKeyAction.transparent then resolve rest p
    else if layer p = LogicalKeyAction.blocked then none
    else some (layer p)

theorem resolve_cons (layer : Layer) (rest : List Layer) (p : KeyPosition) :
    resolve (layer :: rest) p =
      if layer p = LogicalKeyAction.transparent then resolve rest p
      else if layer p = LogicalKeyAction.blocked then none
      else some (layer p) := rfl

theorem resolve_some_split (p : KeyPosition) (stack : List Layer) (a : LogicalKeyAction)
    (h : resolve stack p = some a) :
    a ≠ LogicalKeyAction.transparent ∧ a ≠ LogicalKeyAction.blocked ∧
    ∃ s1 l s2, stack = s1 ++ l :: s2 ∧
      (∀ l2 ∈ s1, l2 p = LogicalKeyAction.transparent) ∧ l p = a := by
  induction stack with
  | nil => simp [resolve] at h
  | cons layer rest ih =>
    rw [resolve_cons] at h
    by_cases h1 : layer p = LogicalKeyAction.transparent
    · rw [if_pos h1] at h
      obtain ⟨hn1, hn2, s1, l, s2, hst, htr, hla⟩ := ih h
      refine ⟨hn1, hn2, layer :: s1, l, s2, ?_, ?_, hla⟩
      · rw [hst]; rfl
      · intro l2 hl2
        rcases List.mem_cons.mp hl2 with h' | h'
        · rw [h']; exact h1
        · exact htr l2 h'
    · rw [if_neg h1] at h
      by_cases h2 : layer p = LogicalKeyAction.blocked
      · rw [if_pos h2] at h; cases h
      · rw [if_neg h2] at h
        have ha : layer p = a := Option.some.inj h
        refine ⟨ha ▸ h1, ha ▸ h2, [], layer, rest, rfl, ?_, ha⟩
        intro l2 hl2; simp at hl2

theorem resolve_all_transparent (p : KeyPosition) (stack : List Layer)
    (h : ∀ l ∈ stack, l p = LogicalKeyAction.transparent) :
    resolve stack p = none := by
  induction stack with
  | nil => rfl
  | cons layer rest ih =>
    rw [resolve_cons, if_pos (h layer (List.mem_cons_self layer rest))]
    exact ih fun l hl => h l (List.mem_cons_of_mem layer hl)

theorem resolve_blocked_stops (p : KeyPosition) (s1 : List Layer) (l : Layer) (s2 : List Layer)
    (htr : ∀ l2 ∈ s1, l2 p = LogicalKeyAction.transparent)
    (hb : l p = LogicalKeyAction.blocked) :
    resolve (s1 ++ l :: s2) p = none := by
  induction s1 with
  | nil => simp [resolve, hb]
  | cons l2 rest ih =>
    have h2 : l2 p = LogicalKeyAction.transparent := htr l2 (List.mem_cons_self l2 rest)
    rw [List.cons_append, resolve_cons, if_pos h2]
    exact ih fun l3 hl3 => htr l3 (List.mem_cons_of_mem l2 hl3)

theorem resolve_first_binding (p : KeyPosition) (s1 : List Layer) (l : Layer) (s2 : List Layer)
    (htr : ∀ l2 ∈ s1, l2 p = LogicalKeyAction.transparent)
    (ha1 : l p ≠ LogicalKeyAction.transparent) (ha2 : l p ≠ LogicalKeyAction.blocked) :
    resolve (s1 ++ l :: s2) p = some (l p) := by
  induction s1 with
  | nil => rw [List.nil_append, resolve_cons, if_neg ha1, if_neg ha2]
  | cons l2 rest ih =>
    have h2 : l2 p = LogicalKeyAction.transparent := htr l2 (List.mem_cons_self l2 rest)
    rw [List.cons_append, resolve_cons, if_pos h2]
    exact ih fun l3 hl3 => htr l3 (List.mem_cons_of_mem l2 hl3)

/-- C1: resolving a KeyPosition against a LayerStack scans layers from the
top of the stack down and (1) any returned action is neither Transparent
nor Blocked and is the binding of the first scanned layer whose entry is
not Transparent; (2) if it is such a first binding it is returned; (3) if
every scanned layer is Transparent at the position, no action results;
(4) if the first non-Transparent entry is Blocked, the scan stops there
and no binding from a lower layer is exposed. -/
theorem layer_resolution_correct (stack : List Layer) (p : KeyPosition) :
    (∀ a, resolve stack p = some a →
        a ≠ LogicalKeyAction.transparent ∧ a ≠ LogicalKeyAction.blocked ∧
        ∃ s1 l s2, stack = s1 ++ l :: s2 ∧
          (∀ l2 ∈ s1, l2 p = LogicalKeyAction.transparent) ∧ l p = a) ∧
    (∀ s1 l s2, stack = s1 ++ l :: s2 →
        (∀ l2 ∈ s1, l2 p = LogicalKeyAction.transparent) →
        l p ≠ LogicalKeyAction.transparent → l p ≠ LogicalKeyAction.blocked →
        resolve stack p = some (l p)) ∧
    ((∀ l ∈ stack, l p = LogicalKeyAction.transparent) → resolve stack p = none) ∧
    (∀ s1 l s2, stack = s1 ++ l :: s2 →
        (∀ l2 ∈ s1, l2 p = LogicalKeyAction.transparent) →
        l p = LogicalKeyAction.blocked → resolve stack p = none) :=
  ⟨fun a h => resolve_some_split p stack a h,
   fun s1 l s2 hst htr ha1 ha2 => hst ▸ resolve_first_binding p s1 l s2 htr ha1 ha2,
   fun h => resolve_all_transparent p stack h,
   fun s1 l s2 hst htr hb => hst ▸ resolve_blocked_stops p s1 l s2 htr hb⟩

/-- A layer that blocks every position, used to witness the Blocked
branch of layer resolution (the shipped keymaps contain no `XXX`). -/
def blockedTestLayer : Layer := fun _ => LogicalKeyAction.blocked

/-- Witness for C1: with the MOUSE layer (Transparent at slot 8) above a
blocking layer above PRIMARY, resolution at slot 8 stops at the blocking
layer and never exposes PRIMARY's `Key_Q` binding. -/
theorem layer_resolution_correct_witness :
    resolve [layerFun mouseKeymap, blockedTestLayer, layerFun primaryKeymap] (8 : Fin 64) = none :=
  (layer_resolution_correct [layerFun mouseKeymap, blockedTestLayer, layerFun primaryKeymap]
      (8 : Fin 64)).2.2.2 [layerFun mouseKeymap] blockedTestLayer [layerFun primaryKeymap] rfl
    (by intro l2 hl2; rw [List.mem_singleton] at hl2; rw [hl2]; rfl) rfl

/-- The keyboard state visible to this configuration: the layer stack
plus unrelated mutable state the sketch also configures (LED mode index,
LED brightness, idle-LED timer).  Layer resolution consults only the
stack. -/
structure KeyboardState where
  stack : List Layer
  ledModeIndex : Nat
  ledBrightness : Nat
  idleTimerMs : Nat

/-- Layer resolution invoked on the whole keyboard state. -/
def resolveInState (s : KeyboardState) (p : KeyPosition) : Option LogicalKeyAction :=
  resolve s.stack p

/-- C2: layer resolution is a deterministic function of the position and
the ordered stack contents alone: any two keyboard states with the same
ordered layer stack resolve every position identically, whatever their
other state. -/
theorem layer_resolution_deterministic (s1 s2 : KeyboardState) (p : KeyPosition)
    (h : s1.stack = s2.stack) : resolveInState s1 p = resolveInState s2 p := by
  unfold resolveInState
  rw [h]

/-- Witness for C2: two states sharing the stack `[PRIMARY]` but differing
in LED mode, brightness and idle timer resolve slot 8 identically. -/
theorem layer_resolution_deterministic_witness :
    resolveInState ⟨[layerFun primaryKeymap], 0, 100, 0⟩ (8 : Fin 64)
      = resolveInState ⟨[layerFun primaryKeymap], 5, 42, 9999⟩ (8 : Fin 64) :=
  layer_resolution_deterministic ⟨[layerFun primaryKeymap], 0, 100, 0⟩
    ⟨[layerFun primaryKeymap], 5, 42, 9999⟩ (8 : Fin 64) rfl

/-- A physical matrix position `RrCc` as used by the magic-combo key
lists and the layer-shift bookkeeping: a (row, column) pair. -/
abbrev MatrixPos := Nat × Nat

/-- Modelled from the spec: the layer-shift bookkeeping lives in the
external framework.  Spec sections 3 and 4.1: the LayerStack is mutated
by ShiftToLayer presses (push while physically held) and the matching
releases (pop); `held` records which shift keys are physically down, and
`entries` the pushed (source position, target layer) pairs, top first. -/
structure ShiftState where
  held : List MatrixPos
  entries : List (MatrixPos × Nat)

/-- Modelled from the spec: a press of a key resolving to ShiftToLayer L
pushes one stack entry, unless that physical key is already held (holding
one key contributes at most one stack entry). -/
def pressShift (p : MatrixPos) (L : Nat) (s : ShiftState) : ShiftState :=
  if p ∈ s.held then s
  else { held := p :: s.held, entries := (p, L) :: s.entries }

/-- Remove the first stack entry pushed from position `p`. -/
def popMatching (p : MatrixPos) : List (MatrixPos × Nat) → List (MatrixPos × Nat)
  | [] => []
  | e :: rest => if e.1 = p then rest else e :: popMatching p rest

/-- Modelled from the spec: releasing a ShiftToLayer key pops the one
matching entry pushed from that key's position. -/
def releaseShift (p : MatrixPos) (s : ShiftState) : ShiftState :=
  { held := s.held.erase p, entries := popMatching p s.entries }

/-- Number of stack entries pushed from position `p`. -/
def countFor (p : MatrixPos) : List (MatrixPos × Nat) → Nat
  | [] => 0
  | e :: rest => (if e.1 = p then 1 else 0) + countFor p rest

theorem popMatching_length (p : MatrixPos) (l : List (MatrixPos × Nat))
    (h : ∃ e ∈ l, e.1 = p) : (popMatching p l).length + 1 = l.length := by
  induction l with
  | nil => obtain ⟨e, he, _⟩ := h; simp at he
  | cons e rest ih =>
    by_cases hc : e.1 = p
    · simp [popMatching, hc]
    · have h' : ∃ e2 ∈ rest, e2.1 = p := by
        obtain ⟨e2, he2, hp2⟩ := h
        rcases List.mem_cons.mp he2 with h'' | h''
        · exact absurd (h'' ▸ hp2) hc
        · exact ⟨e2, h'', hp2⟩
      have := ih h'
      simp [popMatching, hc]
      omega

theorem popMatching_countFor (p : MatrixPos) (l : List (MatrixPos × Nat))
    (h : ∃ e ∈ l, e.1 = p) : countFor p (popMatching p l) + 1 = countFor p l := by
  induction l with
  | nil => obtain ⟨e, he, _⟩ := h; simp at he
  | cons e rest ih =>
    by_cases hc : e.1 = p
    · simp [popMatching, countFor, hc]; omega
    · have h' : ∃ e2 ∈ rest, e2.1 = p := by
        obtain ⟨e2, he2, hp2⟩ := h
        rcases List.mem_cons.mp he2 with h'' | h''
        · exact absurd (h'' ▸ hp2) hc
        · exact ⟨e2, h'', hp2⟩
      have := ih h'
      simp [popMatching, countFor, hc]
      omega

/-- C3: a press of a key resolving to ShiftToLayer pushes exactly one
entry for the target layer; the matching release pops exactly one
matching entry (total length down by one, entries for that key down by
one); a repeated press from the same still-held key is a no-op; and the
PRIMARY keymap's left palm key (slot 31) is such a ShiftToLayer(SYMBOL)
key. -/
theorem shiftToLayer_stack_discipline :
    (∀ (p : MatrixPos) (L : Nat) (s : ShiftState), p ∉ s.held →
        (pressShift p L s).entries = (p, L) :: s.entries ∧
        (pressShift p L s).entries.length = s.entries.length + 1) ∧
    (∀ (p : MatrixPos) (s : ShiftState), (∃ e ∈ s.entries, e.1 = p) →
        (releaseShift p s).entries.length + 1 = s.entries.length ∧
        countFor p (releaseShift p s).entries + 1 = countFor p s.entries) ∧
    (∀ (p : MatrixPos) (L : Nat) (s : ShiftState),
        pressShift p L (pressShift p L s) = pressShift p L s) ∧
    layerFun primaryKeymap (31 : Fin 64) = ShiftToLayer SYMBOL := by
  refine ⟨?_, ?_, ?_, rfl⟩
  · intro p L s h
    constructor
    · simp [pressShift, h]
    · simp [pressShift, h]
  · intro p s h
    exact ⟨popMatching_length p s.entries h, popMatching_countFor p s.entries h⟩
  · intro p L s
    by_cases h : p ∈ s.held
    · simp [pressShift, h]
    · simp [pressShift, h]

/-- Witness for C3: pressing the left palm key at R3C6 on an empty state
pushes the single entry for SYMBOL, and releasing it from that state pops
it again. -/
theorem shiftToLayer_stack_discipline_witness :
    (pressShift (3, 6) SYMBOL ⟨[], []⟩).entries = [((3, 6), SYMBOL)] ∧
    (releaseShift (3, 6) ⟨[(3, 6)], [((3, 6), SYMBOL)]⟩).entries.length + 1 = 1 :=
  ⟨(shiftToLayer_stack_discipline.1 (3, 6) SYMBOL ⟨[], []⟩ (by simp)).1,
   (shiftToLayer_stack_discipline.2.1 (3, 6) ⟨[(3, 6)], [((3, 6), SYMBOL)]⟩
      ⟨((3, 6), SYMBOL), by simp⟩).1⟩

/-- Modelled from the spec: the per-key dual-role resolution state (spec
section 3, `DualRoleKeyState`). -/
inductive DualRoleState where
  | idle
  | awaitingResolution
  | resolvedPrimary
  | resolvedSecondary
  deriving DecidableEq, Repr

/-- Events observed by one dual-role key's resolver: its own press, its
own release, another key completing a disambiguating full press-release
cycle while this key is held, and mere passage of time. -/
inductive DualRoleEvent where
  | pressSelf
  | releaseSelf
  | otherKeyCycle
  | timeAdvance
  deriving DecidableEq, Repr

/-- What a dual-role key resolution emits: the primary action as a tap,
or activation of the secondary (modifier/layer) role. -/
inductive DualRoleEmit where
  | tapPrimary
  | secondaryActive
  deriving DecidableEq, Repr

/-- Modelled from the spec: the qukeys engine lives in the external
framework.  Spec sections 4.2 and 5: press enters AwaitingResolution;
a disambiguating other-key cycle while held resolves to the secondary
role; the key's own release while still awaiting resolves it as a tap of
the primary action; time passing alone never resolves it (no maximum
hold timeout); once resolved the outcome is cached until release. -/
def dualRoleStep : DualRoleState → DualRoleEvent → DualRoleState × Option DualRoleEmit
  | .idle, .pressSelf => (.awaitingResolution, none)
  | .idle, _ => (.idle, none)
  | .awaitingResolution, .releaseSelf => (.idle, some .tapPrimary)
  | .awaitingResolution, .otherKeyCycle => (.resolvedSecondary, some .secondaryActive)
  | .awaitingResolution, _ => (.awaitingResolution, none)
  | .resolvedSecondary, .releaseSelf => (.idle, none)
  | .resolvedSecondary, _ => (.resolvedSecondary, none)
  | .resolvedPrimary, .releaseSelf => (.idle, none)
  | .resolvedPrimary, _ => (.resolvedPrimary, none)

/-- Run a dual-role resolver over an event trace, collecting emissions. -/
def dualRoleRun (s : DualRoleState) : List DualRoleEvent → DualRoleState × List DualRoleEmit
  | [] => (s, [])
  | e :: rest =>
    let step := dualRoleStep s e
    let tail := dualRoleRun step.1 rest
    (tail.1, step.2.toList ++ tail.2)

theorem dualRoleRun_awaiting_time (n : Nat) :
    dualRoleRun DualRoleState.awaitingResolution (List.replicate n DualRoleEvent.timeAdvance)
      = (DualRoleState.awaitingResolution, []) := by
  induction n with
  | zero => rfl
  | succ m ih => simp [List.replicate_succ, dualRoleRun, dualRoleStep, ih]

theorem dualRoleRun_append (s : DualRoleState) (t1 t2 : List DualRoleEvent) :
    dualRoleRun s (t1 ++ t2)
      = ((dualRoleRun (dualRoleRun s t1).1 t2).1,
         (dualRoleRun s t1).2 ++ (dualRoleRun (dualRoleRun s t1).1 t2).2) := by
  induction t1 generalizing s with
  | nil => simp [dualRoleRun]
  | cons e rest ih => simp [dualRoleRun, ih (dualRoleStep s e).1]

/-- C4: a dual-role key pressed from idle and then held with no
other-key activity, for however long (`n` time steps), stays in
AwaitingResolution and emits nothing — there is no maximum-hold timeout;
its own release then resolves it, emitting exactly the primary tap; and
the PRIMARY keymap's first left thumb key (slot 27) is such a key,
`CTL_T(Backspace)` = DualRole(Backspace, LeftControl). -/
theorem dualRole_tap_resolution (n : Nat) :
    dualRoleRun DualRoleState.idle
        (DualRoleEvent.pressSelf :: List.replicate n DualRoleEvent.timeAdvance)
      = (DualRoleState.awaitingResolution, []) ∧
    dualRoleRun DualRoleState.idle
        (DualRoleEvent.pressSelf ::
          (List.replicate n DualRoleEvent.timeAdvance ++ [DualRoleEvent.releaseSelf]))
      = (DualRoleState.idle, [DualRoleEmit.tapPrimary]) ∧
    layerFun primaryKeymap (27 : Fin 64)
      = LogicalKeyAction.dualRole KeyName.Key_Backspace KeyName.Key_LeftControl := by
  refine ⟨?_, ?_, rfl⟩
  · simp [dualRoleRun, dualRoleStep, dualRoleRun_awaiting_time n]
  · simp [dualRoleRun, dualRoleStep, dualRoleRun_append,
      dualRoleRun_awaiting_time n]

/-- Matrix position `R0C0` (the Prog key). -/
def R0C0 : MatrixPos := (0, 0)

/-- Matrix position `R0C6` (the LED key). -/
def R0C6 : MatrixPos := (0, 6)

/-- Matrix position `R2C6` (Esc). -/
def R2C6 : MatrixPos := (2, 6)

/-- Matrix position `R3C6` (left Fn / palm key). -/
def R3C6 : MatrixPos := (3, 6)

/-- Matrix position `R3C7` (left Shift thumb key). -/
def R3C7 : MatrixPos := (3, 7)

/-- Key set of the NKRO-toggle magic combo (source `USE_MAGIC_COMBOS`,
`.keys = {R3C6, R2C6, R3C7}`, Left Fn + Esc + Shift). -/
def comboToggleNKROKeys : List MatrixPos := [R3C6, R2C6, R3C7]

/-- Key set of the hardware-test-mode magic combo (source
`.keys = {R3C6, R0C0, R0C6}`, Left Fn + Prog + LED). -/
def comboEnterTestModeKeys : List MatrixPos := [R3C6, R0C0, R0C6]

/-- A physical press or release event as seen by the combo detector. -/
inductive ComboEvent where
  | press (p : MatrixPos)
  | release (p : MatrixPos)
  deriving DecidableEq, Repr

/-- State of the detector for one combo: the currently held positions
and whether the combo was already fully held. -/
structure MagicComboState where
  held : List MatrixPos
  wasMatched : Bool
  deriving DecidableEq, Repr

/-- Update the held-position set with one event. -/
def applyComboEvent (held : List MatrixPos) : ComboEvent → List MatrixPos
  | .press p => if p ∈ held then held else p :: held
  | .release p => held.erase p

/-- The combo's full key set is a subset of the held positions. -/
def comboMatched (keys held : List MatrixPos) : Bool :=
  keys.all fun k => held.contains k

/-- Modelled from the spec: the MagicCombo engine lives in the external
framework.  Spec section 4.3: after each event, a combo's action is
invoked exactly when its full key set has just become a subset of the
currently-held positions — on the transition into the matched state
only.  The returned Bool is "action invoked on this event". -/
def magicComboStep (keys : List MatrixPos) (s : MagicComboState) (e : ComboEvent) :
    MagicComboState × Bool :=
  let held2 := applyComboEvent s.held e
  let m := comboMatched keys held2
  ({ held := held2, wasMatched := m }, m && !s.wasMatched)

/-- Run the detector for one combo over an event trace, counting how many
times its action is invoked. -/
def magicComboRun (keys : List MatrixPos) (s : MagicComboState) :
    List ComboEvent → MagicComboState × Nat
  | [] => (s, 0)
  | e :: rest =>
    let step := magicComboStep keys s e
    let tail := magicComboRun keys step.1 rest
    (tail.1, (if step.2 then 1 else 0) + tail.2)

/-- Pressing all three members of the NKRO-toggle combo. -/
def nkroPressAll : List ComboEvent :=
  [ComboEvent.press R3C6, ComboEvent.press R2C6, ComboEvent.press R3C7]

/-- Press all members, then further activity (press and release of an
unrelated key) while the members remain held. -/
def nkroHoldTrace : List ComboEvent :=
  nkroPressAll ++ [ComboEvent.press (0, 1), ComboEvent.release (0, 1)]

/-- The hold trace, then release of all members and a fresh re-press of
every member. -/
def nkroRecycleTrace : List ComboEvent :=
  nkroHoldTrace
    ++ [ComboEvent.release R3C6, ComboEvent.release R2C6, ComboEvent.release R3C7]
    ++ nkroPressAll

/-- Pressing all three members of the test-mode combo. -/
def testModePressAll : List ComboEvent :=
  [ComboEvent.press R3C6, ComboEvent.press R0C0, ComboEvent.press R0C6]

/-- C5: a magic combo's action is invoked on an event exactly when the
event moves the held set into the fully-held state (conjunct 1); the
recorded matched flag always reflects the new held set (conjunct 2), so
while it is set no event can re-fire the action (conjunct 3); concretely,
for the registered NKRO-toggle combo, pressing its three keys and
continuing with other activity while they stay held fires once, a full
release and re-press fires a second time, and the registered test-mode
combo fires once when its three keys are pressed. -/
theorem magicCombo_single_firing :
    (∀ (keys : List MatrixPos) (s : MagicComboState) (e : ComboEvent),
        (magicComboStep keys s e).2 = true ↔
          comboMatched keys (applyComboEvent s.held e) = true ∧ s.wasMatched = false) ∧
    (∀ (keys : List MatrixPos) (s : MagicComboState) (e : ComboEvent),
        (magicComboStep keys s e).1.wasMatched
          = comboMatched keys (magicComboStep keys s e).1.held) ∧
    (∀ (keys : List MatrixPos) (s : MagicComboState) (e : ComboEvent),
        s.wasMatched = true → (magicComboStep keys s e).2 = false) ∧
    (magicComboRun comboToggleNKROKeys ⟨[], false⟩ nkroHoldTrace).2 = 1 ∧
    (magicComboRun comboToggleNKROKeys ⟨[], false⟩ nkroRecycleTrace).2 = 2 ∧
    (magicComboRun comboEnterTestModeKeys ⟨[], false⟩ testModePressAll).2 = 1 := by
  refine ⟨?_, ?_, ?_, by decide, by decide, by decide⟩
  · intro keys s e
    simp [magicComboStep, Bool.and_eq_true, Bool.not_eq_true']
  · intro keys s e
    rfl
  · intro keys s e h
    simp [magicComboStep, h]

/-- Witness for C5: with all three NKRO-combo keys already held and the
combo already matched, an unrelated press does not re-fire the action. -/
theorem magicCombo_single_firing_witness :
    (magicComboStep comboToggleNKROKeys ⟨[R3C6, R2C6, R3C7], true⟩
        (ComboEvent.press (0, 1))).2 = false :=
  magicCombo_single_firing.2.2.1 comboToggleNKROKeys ⟨[R3C6, R2C6, R3C7], true⟩
    (ComboEvent.press (0, 1)) rfl

/-- Modelled from the spec: the framework delivers a key event's state to
a macro handler as a tri-state (toggled-on, held, toggled-off); the
framework predicate `keyToggledOn` selects the first. -/
inductive KeyEventState where
  | toggledOn
  | held
  | toggledOff
  deriving DecidableEq, Repr

/-- `keyToggledOn(key_state)` on the tri-state event state. -/
def keyToggledOn : KeyEventState → Bool
  | .toggledOn => true
  | _ => false

/-- `versionInfoMacro` from `src/Model100-Firmware.ino` (lines 255-260):
when the key toggled on it types the version banner and then the
build-information string, otherwise it types nothing.  The emission is
modelled as the list of strings passed to `Macros.type`. -/
def versionInfoMacro (buildInformation : String) (key_state : KeyEventState) : List String :=
  if keyToggledOn key_state then
    ["Keyboardio Model 100 - Firmware version ", buildInformation]
  else []

/-- `arrowOperatorMacro` from `src/Model100-Firmware.ino` (lines 262-266):
types the literal text when the key toggled on, nothing otherwise. -/
def arrowOperatorMacro (keyState : KeyEventState) : List String :=
  if keyToggledOn keyState then ["->"] else []

/-- The id `MACRO_VERSION_INFO` = 0 (source macro enum). -/
def MACRO_VERSION_INFO : Nat := 0

/-- The id `MACRO_ARROW` = 1. -/
def MACRO_ARROW : Nat := 1

/-- The `const macro_t *` value returned by `macroAction`: the
framework's no-op sentinel `MACRO_NONE`, or a typed text sequence. -/
inductive MacroSequence where
  | MACRO_NONE
  | typed (text : List String)
  deriving DecidableEq, Repr

/-- `macroAction` from `src/Model100-Firmware.ino` (lines 280-294): a
switch on the macro id that calls the matching handler (its typed text is
the first component) and falls through to `return MACRO_NONE` in every
case, including unknown ids. -/
def macroAction (macro_id : Nat) (state : KeyEventState) (buildInformation : String) :
    List String × MacroSequence :=
  if macro_id = MACRO_VERSION_INFO then
    (versionInfoMacro buildInformation state, MacroSequence.MACRO_NONE)
  else if macro_id = MACRO_ARROW then
    (arrowOperatorMacro state, MacroSequence.MACRO_NONE)
  else ([], MacroSequence.MACRO_NONE)

/-- `versionInfoMacro` from `src/unnamed/part_000` (lines 140-145).  That
variant is declared `const macro_t *`; on toggled-on it returns the value
of `Macros.type(...)` (the text is typed, the call yields `MACRO_NONE`),
but on any other key state control falls off the end of the function
without a `return` statement, so the returned value is undefined -
modelled as `none`. -/
def versionInfoMacro_p0 (buildInformation : String) (key_state : KeyEventState) :
    List String × Option MacroSequence :=
  if keyToggledOn key_state then
    (["Keyboardio Model 100 - Firmware version ", buildInformation],
     some MacroSequence.MACRO_NONE)
  else ([], none)

/-- `arrowOperatorMacro` from `src/unnamed/part_000` (lines 147-151):
same shape, same missing `return` on the non-toggled-on path. -/
def arrowOperatorMacro_p0 (keyState : KeyEventState) : List String × Option MacroSequence :=
  if keyToggledOn keyState then (["->"], some MacroSequence.MACRO_NONE) else ([], none)

/-- `macroAction` from `src/unnamed/part_000` (lines 157-168): returns
the handler's value for the two known ids and falls through the switch to
`return MACRO_NONE` for every other id. -/
def macroAction_p0 (macro_id : Nat) (state : KeyEventState) (buildInformation : String) :
    List String × Option MacroSequence :=
  if macro_id = MACRO_VERSION_INFO then versionInfoMacro_p0 buildInformation state
  else if macro_id = MACRO_ARROW then arrowOperatorMacro_p0 state
  else ([], some MacroSequence.MACRO_NONE)

/-- C6: for every build string, the version macro emits exactly the
banner text followed by the build string on a toggled-on event and
nothing on held or toggled-off events; the arrow macro emits exactly
`"->"` on toggled-on and nothing otherwise; and the `part_000` variants
emit the same text as the `.ino` variants in every state. -/
theorem macro_output_correct (buildInformation : String) :
    String.join (versionInfoMacro buildInformation KeyEventState.toggledOn)
      = "Keyboardio Model 100 - Firmware version " ++ buildInformation ∧
    versionInfoMacro buildInformation KeyEventState.held = [] ∧
    versionInfoMacro buildInformation KeyEventState.toggledOff = [] ∧
    arrowOperatorMacro KeyEventState.toggledOn = ["->"] ∧
    arrowOperatorMacro KeyEventState.held = [] ∧
    arrowOperatorMacro KeyEventState.toggledOff = [] ∧
    (∀ ks, (versionInfoMacro_p0 buildInformation ks).1
      = versionInfoMacro buildInformation ks) ∧
    ∀ ks, (arrowOperatorMacro_p0 ks).1 = arrowOperatorMacro ks := by
  refine ⟨rfl, rfl, rfl, rfl, rfl, rfl, ?_, ?_⟩ <;> intro ks <;> cases ks <;> rfl

/-- C8: dispatching any macro id other than MACRO_VERSION_INFO and
MACRO_ARROW is a no-op in both source variants: nothing is emitted and
the no-op sentinel MACRO_NONE is returned, whatever the event state. -/
theorem macroAction_unknown_id_noop (macro_id : Nat) (state : KeyEventState)
    (buildInformation : String)
    (h1 : macro_id ≠ MACRO_VERSION_INFO) (h2 : macro_id ≠ MACRO_ARROW) :
    macroAction macro_id state buildInformation = ([], MacroSequence.MACRO_NONE) ∧
    macroAction_p0 macro_id state buildInformation = ([], some MacroSequence.MACRO_NONE) := by
  constructor <;> simp [macroAction, macroAction_p0, h1, h2]

/-- Witness for C8: id 7 with a toggled-on event is a no-op. -/
theorem macroAction_unknown_id_noop_witness :
    macroAction 7 KeyEventState.toggledOn "v" = ([], MacroSequence.MACRO_NONE) ∧
    macroAction_p0 7 KeyEventState.toggledOn "v" = ([], some MacroSequence.MACRO_NONE) :=
  macroAction_unknown_id_noop 7 KeyEventState.toggledOn "v" (by decide) (by decide)

/-- C10 (code bug in `src/unnamed/part_000`): a held (not toggled-on)
event reaches the end of the non-void handlers without a `return`, so
`macroAction` there propagates an undefined value (`none`) for both known
macro ids instead of a defined `MACRO_NONE`; the `.ino` variant of
`macroAction` does return the defined sentinel on the same input. -/
theorem macroAction_p0_undefined_on_held :
    (macroAction_p0 MACRO_VERSION_INFO KeyEventState.held "v").2 = none ∧
    (macroAction_p0 MACRO_ARROW KeyEventState.held "v").2 = none ∧
    (macroAction MACRO_VERSION_INFO KeyEventState.held "v").2 = MacroSequence.MACRO_NONE :=
  ⟨rfl, rfl, rfl⟩

/-- The observable git state of one working tree at build time: the
output of `git describe` and whether `git diff-index --quiet HEAD --`
succeeds (no uncommitted changes). -/
structure RepoState where
  gitDescribe : String
  diffIndexQuiet : Bool

/-- The `version()` function of the build script bundled with
`src/Model100-Firmware.ino` (lines 498-506): take `git describe` and
append `*` when `git diff-index --quiet HEAD --` fails. -/
def version (r : RepoState) : String :=
  if !r.diffIndexQuiet then r.gitDescribe ++ "*" else r.gitDescribe

/-- The script's composed build string (line 513):
`version="${kaleidoscope_version}::${keymap_version}"`. -/
def buildVersionString (kaleidoscopeRepo keymapRepo : RepoState) : String :=
  version kaleidoscopeRepo ++ "::" ++ version keymapRepo

/-- C7: the build version string is the framework revision descriptor,
then `"::"`, then the configuration revision descriptor, where each half
independently equals its `git describe` output exactly when its tree is
clean and gains exactly a trailing `*` (a genuinely different string)
when its tree has uncommitted changes. -/
theorem build_version_composition (k c : RepoState) :
    buildVersionString k c = version k ++ "::" ++ version c ∧
    (k.diffIndexQuiet = true → version k = k.gitDescribe) ∧
    (k.diffIndexQuiet = false → version k = k.gitDescribe ++ "*") ∧
    (k.diffIndexQuiet = false → version k ≠ k.gitDescribe) ∧
    (c.diffIndexQuiet = false → version c = c.gitDescribe ++ "*") := by
  refine ⟨rfl, ?_, ?_, ?_, ?_⟩
  · intro h; simp [version, h]
  · intro h; simp [version, h]
  · intro h hc
    rw [version, h] at hc
    simp only [Bool.not_false, if_true] at hc
    have hl := congrArg String.length hc
    have h1 : ("*" : String).length = 1 := rfl
    rw [String.length_append, h1] at hl
    omega
  · intro h; simp [version, h]

/-- Witness for C7: a clean framework tree keeps its descriptor, a dirty
configuration tree gains a trailing `*`, and the composed string joins
them with `"::"`. -/
theorem build_version_composition_witness :
    version ⟨"v1.99.7", true⟩ = "v1.99.7" ∧
    version ⟨"0.9.1", false⟩ = "0.9.1" ++ "*" ∧
    buildVersionString ⟨"v1.99.7", true⟩ ⟨"0.9.1", false⟩
      = version ⟨"v1.99.7", true⟩ ++ "::" ++ version ⟨"0.9.1", false⟩ :=
  ⟨(build_version_composition ⟨"v1.99.7", true⟩ ⟨"v1.99.7", true⟩).2.1 rfl,
   (build_version_composition ⟨"v1.99.7", true⟩ ⟨"0.9.1", false⟩).2.2.2.2 rfl,
   (build_version_composition ⟨"v1.99.7", true⟩ ⟨"0.9.1", false⟩).1⟩

/-- C9: every one of the 64 key positions has a non-Blocked entry on the
base PRIMARY layer, in the keymap tables of both source files (the
64-entry tables are total, and no entry is `XXX`). -/
theorem primary_layer_never_blocked :
    (∀ p : KeyPosition, (layerFun primaryKeymap p != LogicalKeyAction.blocked) = true) ∧
    (∀ p : KeyPosition, (layerFun primaryKeymap_p0 p != LogicalKeyAction.blocked) = true) ∧
    primaryKeymap.length = 64 ∧ primaryKeymap_p0.length = 64 := by
  refine ⟨?_, ?_, rfl, rfl⟩ <;> decide
